import Mathlib

/-!
Verification development for the lab_graber_bot repository: a shallow
embedding of the registration wizard, admin auth flow, admin session
store, grading poll loop and course-selection flow, with theorems about
the frozen specification claims.
-/

namespace LabGraber

/-! ### Python string helpers

`str.strip()` is modelled as dropping whitespace from both ends of the
character list; `str.title()` by the language-independent word algorithm
(a cased character that follows a non-cased character is uppercased,
every other cased character is lowercased), with `Char.isAlpha` as the
cased-character predicate. -/

def stripChars (l : List Char) : List Char :=
  ((l.dropWhile Char.isWhitespace).reverse.dropWhile Char.isWhitespace).reverse

def pyStrip (s : String) : String := String.mk (stripChars s.data)

def pyTitleAux : Bool → List Char → List Char
  | _, [] => []
  | prevAlpha, c :: cs =>
    (if c.isAlpha then (if prevAlpha then c.toLower else c.toUpper) else c)
      :: pyTitleAux c.isAlpha cs

def pyTitle (s : String) : String := String.mk (pyTitleAux false s.data)

/-- `normalize_fio` from handlers/student.py: `text.strip().title()`. -/
def normalize_fio (text : String) : String := pyTitle (pyStrip text)

/-- `html.escape` on one character (used by `quote_html` in handlers/common.py). -/
def htmlEscapeChar (c : Char) : String :=
  if c = '&' then "&amp;"
  else if c = '<' then "&lt;"
  else if c = '>' then "&gt;"
  else if c = '"' then "&quot;"
  else if c = '\'' then "&#x27;"
  else String.singleton c

def quote_html (s : String) : String := String.join (s.data.map htmlEscapeChar)

/-- `aiogram.utils.markdown.bold`. -/
def mdBold (s : String) : String := "*" ++ s ++ "*"

/-! ### Inline keyboards (keyboards/common.py, keyboards/admin.py)

Modelled as opaque tags; the only structural fact the claims need is
which keyboard a handler attaches (e.g. `startKb` carries the
"Зарегистрироваться" / `reg_start` restart button). -/

inductive Kb
  | startKb
  | navKb (includeBack : Bool)
  | confirmKb
  | mainMenuKb
  | backMenuKb
  | homeKb
  | loginBackKb
  | adminMainKb
deriving DecidableEq, Repr

/-! ### Registration wizard (states/reg.py, handlers/student.py) -/

inductive RegState
  | SURNAME
  | NAME
  | PATRONYMIC
  | GROUP
  | GITHUB
  | CONFIRM
deriving DecidableEq, BEq, Repr

/-- `ORDER = [Reg.SURNAME, Reg.NAME, Reg.PATRONYMIC, Reg.GROUP, Reg.GITHUB]`. -/
def ORDER : List RegState :=
  [RegState.SURNAME, RegState.NAME, RegState.PATRONYMIC, RegState.GROUP, RegState.GITHUB]

/-- `PREV = dict ORDER[i+1] to ORDER[i]`: predecessor in the fixed order. -/
def PREV (s : RegState) : Option RegState :=
  ((ORDER.drop 1).zip ORDER).lookup s

/-- `ORDER[ORDER.index(cur) + 1]`, as used by `reg_steps` for `cur` other
than GITHUB. -/
def NEXT (s : RegState) : Option RegState :=
  (ORDER.zip (ORDER.drop 1)).lookup s

/-- The `PROMPTS` dict. The source dict has no CONFIRM entry and no call
site looks CONFIRM up; CONFIRM is mapped to `""` here. -/
def PROMPTS : RegState → String
  | RegState.SURNAME => "Введи фамилию"
  | RegState.NAME => "Введи имя"
  | RegState.PATRONYMIC => "Введи отчество\n(если нет — напиши «-»)"
  | RegState.GROUP => "Введи группу"
  | RegState.GITHUB => "Введи GitHub"
  | RegState.CONFIRM => ""

/-- The FSM data bag of the registration flow: the five collected fields
keyed by state tag, plus the reserved `__bot_msg_id` key. `none` means
the key is absent. -/
structure RegBag where
  surname : Option String
  name : Option String
  patronymic : Option String
  group : Option String
  github : Option String
  botMsgId : Option Nat
deriving DecidableEq, Repr

def RegBag.empty : RegBag := ⟨none, none, none, none, none, none⟩

/-- `data[cur_state] = text` followed by the merge `update_data(data)`. -/
def RegBag.setField (bag : RegBag) (s : RegState) (v : String) : RegBag :=
  match s with
  | RegState.SURNAME => { bag with surname := some v }
  | RegState.NAME => { bag with name := some v }
  | RegState.PATRONYMIC => { bag with patronymic := some v }
  | RegState.GROUP => { bag with group := some v }
  | RegState.GITHUB => { bag with github := some v }
  | RegState.CONFIRM => bag

/-- `_send` stores the freshly sent message id under `__bot_msg_id`. -/
def RegBag.setBotMsg (bag : RegBag) (mid : Nat) : RegBag :=
  { bag with botMsgId := some mid }

/-- States whose input is passed through `normalize_fio`. -/
def isFio (s : RegState) : Bool :=
  s == RegState.SURNAME || s == RegState.NAME || s == RegState.PATRONYMIC

/-- The CONFIRM summary string built in `reg_steps` from the collected
fields; `none` when a field key is missing (a KeyError in the source). -/
def regSummary (bag : RegBag) : Option String :=
  match bag.surname, bag.name, bag.patronymic, bag.group, bag.github with
  | some su, some na, some pa, some gr, some gh =>
      some ("<b>" ++ su ++ " " ++ na ++ " " ++ pa ++ "</b>\n"
            ++ "Группа: " ++ gr ++ "\nGitHub: " ++ gh)
  | _, _, _, _, _ => none

structure StepOut where
  state : RegState
  bag : RegBag
  rendered : String
  kb : Kb
deriving DecidableEq, Repr

/-- Handler `reg_steps`: strip the input, title-case it for the three
name fields, store it under the current state tag, then either advance
to the next state with its prompt or (from GITHUB) move to CONFIRM with
the summary. `freshMsgId` is the id of the message `_send` sends.
`none` models an uncaught exception (dispatch outside the five states,
or a missing field key while building the summary). -/
def reg_steps (cur : RegState) (bag : RegBag) (input : String) (freshMsgId : Nat) :
    Option StepOut :=
  let text := pyStrip input
  let text := if isFio cur then normalize_fio text else text
  let bag1 := bag.setField cur text
  if cur ≠ RegState.GITHUB then
    match NEXT cur with
    | some nxt => some ⟨nxt, bag1.setBotMsg freshMsgId, PROMPTS nxt, Kb.navKb true⟩
    | none => none
  else
    match regSummary bag1 with
    | some s => some ⟨RegState.CONFIRM, bag1.setBotMsg freshMsgId, s, Kb.confirmKb⟩
    | none => none

structure BackOut where
  state : RegState
  bag : RegBag
  rendered : Option String
  kb : Option Kb
deriving DecidableEq, Repr

/-- Handler `reg_back`. With no predecessor (SURNAME) it only answers the
callback: state and bag are untouched and nothing is rendered. Otherwise
it moves to the predecessor and re-renders its prompt; the source pops
`__bot_msg_id` from a local copy and merges it back (merge semantics keep
the stored entry), after which `_send` overwrites it with the fresh id.
From CONFIRM the `next(...)` generator over ORDER raises (`none`). -/
def reg_back (cur : RegState) (bag : RegBag) (freshMsgId : Nat) : Option BackOut :=
  if ORDER.contains cur then
    match PREV cur with
    | none => some ⟨cur, bag, none, none⟩
    | some prev =>
        some ⟨prev, bag.setBotMsg freshMsgId, some (PROMPTS prev),
              some (Kb.navKb (prev != RegState.SURNAME))⟩
  else none

/-! ### Student registry (models/student.py, services/student.py)

The students table is a list of rows plus the AUTOINCREMENT counter.
Timestamps are integers (the ISO strings of the source compare the same
way the underlying instants do). -/

structure CourseRef where
  name : String
  semester : String
deriving DecidableEq, Repr

structure StudentRec where
  id : Option Nat
  chat_id : Int
  surname : String
  name : String
  patronymic : Option String
  group_code : String
  github : String
  courses : List CourseRef
  created_at : Option Int
  updated_at : Option Int
deriving DecidableEq, Repr

structure StudentDB where
  rows : List StudentRec
  nextId : Nat
deriving DecidableEq, Repr

/-- `StudentRepository.get_by_chat`: `SELECT * FROM students WHERE chat_id=?`. -/
def StudentRepository.get_by_chat (db : StudentDB) (chat : Int) : Option StudentRec :=
  db.rows.find? (fun r => r.chat_id == chat)

/-- `StudentRepository._check_existing_student`: row with the same
(surname, name, group_code, github) tuple. -/
def StudentRepository.check_existing (db : StudentDB) (s : StudentRec) : Option StudentRec :=
  db.rows.find? (fun r =>
    r.surname == s.surname && r.name == s.name
      && r.group_code == s.group_code && r.github == s.github)

inductive SaveError
  | duplicate
deriving DecidableEq, Repr

/-- `StudentRepository.save`: for a record without an id, a row with the
same (surname, name, group_code, github) tuple raises ValueError;
otherwise an id-bearing record is UPDATEd in place and an id-less record
is INSERTed with a fresh id and timestamps. -/
def StudentRepository.save (db : StudentDB) (s : StudentRec) (now : Int) :
    Except SaveError StudentDB :=
  if s.id == none && (StudentRepository.check_existing db s).isSome then
    Except.error SaveError.duplicate
  else
    match s.id with
    | some i =>
        Except.ok ⟨db.rows.map (fun r =>
          if r.id == some i then
            { r with surname := s.surname, name := s.name, patronymic := s.patronymic,
                     group_code := s.group_code, github := s.github, courses := s.courses,
                     updated_at := some now }
          else r), db.nextId⟩
    | none =>
        Except.ok ⟨db.rows ++
          [{ s with id := some db.nextId, created_at := some now, updated_at := some now }],
          db.nextId + 1⟩

/-- `StudentRepository.delete_group`: `DELETE FROM students WHERE group_code=?`. -/
def StudentRepository.delete_group (db : StudentDB) (group : String) : StudentDB :=
  ⟨db.rows.filter (fun r => !(r.group_code == group)), db.nextId⟩

/-- The distinct group codes in ascending order, as in
`sorted(set(st.group_code for st in await repo.all()))`. -/
def groupCodes (db : StudentDB) : List String :=
  List.insertionSort (fun a b => a ≤ b) (db.rows.map (fun r => r.group_code)).dedup

/-- The duplicate-registration rejection text of `reg_confirm`. -/
def dupRegMessage : String :=
  "❌ Студент с такими же данными уже зарегистрирован в системе.\n\n"
    ++ "Если это ваши данные, но вы используете другой Telegram аккаунт, "
    ++ "пожалуйста, обратитесь к администратору."

structure ConfirmOut where
  state : Option RegState
  bag : RegBag
  db : StudentDB
  rendered : String
  kb : Kb
deriving DecidableEq, Repr

/-- Handler `reg_confirm`: read the bag, clear the session, build the
Student (patronymic `"-"` becomes None) and persist it. On a duplicate
(ValueError) the registry is untouched and the rejection is rendered
with the start keyboard; on success the main menu is rendered. `none`
models the KeyError on a missing field. -/
def reg_confirm (chat : Int) (bag : RegBag) (db : StudentDB) (now : Int) :
    Option ConfirmOut :=
  match bag.surname, bag.name, bag.patronymic, bag.group, bag.github with
  | some su, some na, some pa, some gr, some gh =>
      let student : StudentRec :=
        { id := none, chat_id := chat, surname := su, name := na,
          patronymic := if pa == "-" then none else some pa,
          group_code := gr, github := gh, courses := [],
          created_at := none, updated_at := none }
      match StudentRepository.save db student now with
      | Except.ok db2 =>
          some ⟨none, RegBag.empty, db2,
                "✅ Регистрация завершена\n\n🏠 Главное меню", Kb.mainMenuKb⟩
      | Except.error SaveError.duplicate =>
          some ⟨none, RegBag.empty, db, dupRegMessage, Kb.startKb⟩
  | _, _, _, _, _ => none

/-! ### Admin session store (services/admin.py) -/

structure SessionRow where
  cookie : String
  expires_at : Int
deriving DecidableEq, Repr

/-- The admin_sessions table (ordered rows). -/
abbrev SessionDB := List SessionRow

/-- `AdminSessionRepo.get_cookie`: `SELECT cookie, expires_at ... LIMIT 1`. -/
def AdminSessionRepo.get_cookie (db : SessionDB) : Option SessionRow := db.head?

/-- `AdminSessionRepo.save_cookie` with the default `ttl_sec = 3600`:
`DELETE FROM admin_sessions` then insert (cookie, now + 3600). -/
def AdminSessionRepo.save_cookie (_db : SessionDB) (cookie : String) (now : Int) :
    SessionDB :=
  [⟨cookie, now + 3600⟩]

/-- `AdminSessionRepo.clear`: `DELETE FROM admin_sessions`. -/
def AdminSessionRepo.clear (_db : SessionDB) : SessionDB := []

inductive SessionOp
  | save (cookie : String) (now : Int)
  | clear
deriving Repr

def applySessionOp (db : SessionDB) : SessionOp → SessionDB
  | SessionOp.save c now => AdminSessionRepo.save_cookie db c now
  | SessionOp.clear => AdminSessionRepo.clear db

/-! ### Admin auth flow (states/admin.py, handlers/admin.py) -/

inductive AdminState
  | LOGIN
  | PASSWORD
  | MAIN
  | GROUPS
  | STUDENTS
  | STUDENT_INFO
  | COURSES
  | COURSE_INFO
  | EDIT
  | CONFIRM
deriving DecidableEq, Repr

structure EnsureOut where
  db : SessionDB
  alert : Option String
  ok : Bool
deriving DecidableEq, Repr

/-- The auth guard `_ensure_admin`: no stored cookie, or stored expiry at
or before now, means failure; the expired case also purges the store. -/
def ensure_admin (db : SessionDB) (now : Int) : EnsureOut :=
  match AdminSessionRepo.get_cookie db with
  | none => ⟨db, some "⚠️ Нужно войти заново", false⟩
  | some row =>
      if row.expires_at ≤ now then
        ⟨AdminSessionRepo.clear db, some "⏰ Сессия истекла", false⟩
      else ⟨db, none, true⟩

structure GuardedOut (σ : Type) where
  db : SessionDB
  alert : Option String
  convState : σ
  bodyRan : Bool
deriving Repr

/-- The calling pattern of the privileged admin handlers that invoke the
auth guard first — `admin_groups`, `admin_courses`, `back_courses`,
`add_course_start`, `upload_new_course` and the course branch of
`admin_cancel`: `if not await _ensure_admin(cb, db): return`, and only
then the privileged body (which may touch the session store and the
conversation state). Other privileged handlers in handlers/admin.py
(`admin_group_open`, `back_students`, `admin_student`, `del_student`,
`del_group`, `course_info`, `do_course_del`) never call the guard and do
not follow this pattern; see `del_group` below. -/
def runGuarded {σ : Type} (db : SessionDB) (now : Int) (st : σ)
    (body : SessionDB → σ → SessionDB × σ) : GuardedOut σ :=
  let e := ensure_admin db now
  if e.ok then
    let r := body e.db st
    ⟨r.1, e.alert, r.2, true⟩
  else
    ⟨e.db, e.alert, st, false⟩

structure PwStepOut where
  state : AdminState
  db : SessionDB
  rendered : String
  kb : Kb
deriving DecidableEq, Repr

/-- Handler `admin_password_step` (dispatched in state PASSWORD).
`loginResult` is what `AdminAPI.login` returned: `none` for a non-200
response or a missing `admin_session` cookie, `some cookie` on success.
On failure the handler renders the error prompt and returns without
touching the FSM state; on success it persists the cookie and moves to
MAIN. -/
def admin_password_step (st : AdminState) (db : SessionDB)
    (loginResult : Option String) (now : Int) : PwStepOut :=
  match loginResult with
  | none => ⟨st, db, "❌ Неверные данные. Попробуйте ещё раз", Kb.loginBackKb⟩
  | some cookie =>
      ⟨AdminState.MAIN, AdminSessionRepo.save_cookie db cookie now,
       "🔧 Админ-панель", Kb.adminMainKb⟩

structure DelGroupOut where
  studentDb : StudentDB
  sessionDb : SessionDB
  state : AdminState
  alert : Option String
  groups : List String
  deleteCalled : Bool
deriving Repr

/-- Handler `del_group` (callback `adm_del_group_yes_...`): extract the
group code, cascade-delete every student of the group via the repository,
set the state to GROUPS and re-render the freshly recomputed group list.
The source never calls `_ensure_admin` here: the session store is neither
read nor purged, no alert is raised, and the delete runs regardless of
any stored token's expiry. `_st` is the conversation state on entry
(CONFIRM when coming from the confirm prompt), which the handler
overwrites unconditionally. -/
def del_group (group : String) (sdb : StudentDB) (adb : SessionDB)
    (_st : AdminState) : DelGroupOut :=
  let sdb2 := StudentRepository.delete_group sdb group
  ⟨sdb2, adb, AdminState.GROUPS, none, groupCodes sdb2, true⟩

/-! ### Grading gateway (services/api.py) and poll loop (handlers/common.py) -/

/-- The JSON body of a grading response, with `none` for absent keys. -/
structure GradeResponse where
  status : String
  result : Option String
  message : Option String
  passed : Option String
  checks : List String
  code : Option Nat
deriving DecidableEq, Repr

/-- What the underlying HTTP request did. -/
inductive HttpOutcome
  | ok (body : GradeResponse)
  | httpError (code : Nat) (text : String)
  | disconnected
  | failure
deriving DecidableEq, Repr

/-- `APIClient.grade_lab`: 200 yields the parsed body; a non-200 status
becomes a synthesized error dict; `ServerDisconnectedError` becomes a
synthesized pending dict; any other exception yields `None`. -/
def APIClient.grade_lab : HttpOutcome → Option GradeResponse
  | HttpOutcome.ok body => some body
  | HttpOutcome.httpError code text => some ⟨"error", none, some text, none, [], some code⟩
  | HttpOutcome.disconnected =>
      some ⟨"pending", none, some "Нет ответа, проверка запущена ⏳", none, [], none⟩
  | HttpOutcome.failure => none

/-- The terminal text built in the `"updated"` branch of `poll()`. -/
def formatGradeResult (r : GradeResponse) : String :=
  let symbol := r.result.getD "✗"
  let msg := r.message.getD ""
  let passedCount := r.passed.getD ""
  let checks := String.intercalate "\n" r.checks
  mdBold "Результат" ++ ": " ++ symbol ++ "\n" ++ quote_html msg ++ "\n\n"
    ++ mdBold "Тесты" ++ ": " ++ passedCount ++ "\n\n" ++ checks

/-- Observable actions of `lab_selected` and its `poll()` task. `sendMsg`
carries the id of the freshly sent message; `editMsg` carries the id of
the message being edited in place. -/
inductive PollEvent
  | sendMsg (msgId : Nat) (text : String)
  | wait (seconds : Nat)
  | editMsg (msgId : Nat) (text : String) (kb : Kb)
deriving DecidableEq, Repr

def isSendEvent : PollEvent → Bool
  | PollEvent.sendMsg _ _ => true
  | _ => false

def isEditEvent : PollEvent → Bool
  | PollEvent.editMsg _ _ _ => true
  | _ => false

def isWaitEvent : PollEvent → Bool
  | PollEvent.wait _ => true
  | _ => false

/-- The `while True` body of `poll()`, run against a script of HTTP
outcomes (one per iteration). `waitMsgId` is the id of the placeholder
message every terminal edit targets. An exhausted script means the loop
is still polling, so no further event is observed. -/
def pollLoop (waitMsgId : Nat) : List HttpOutcome → List PollEvent
  | [] => []
  | o :: rest =>
    match APIClient.grade_lab o with
    | none => [PollEvent.editMsg waitMsgId "❌ Ошибка сервера" Kb.homeKb]
    | some r =>
        if r.status == "pending" then
          PollEvent.wait 15 :: pollLoop waitMsgId rest
        else if r.status == "updated" then
          [PollEvent.editMsg waitMsgId (formatGradeResult r) Kb.homeKb]
        else
          [PollEvent.editMsg waitMsgId
            (quote_html (r.message.getD "❌ Не удалось запустить проверку")) Kb.homeKb]

/-- Handler `lab_selected` for a registered student: send the single
"checking" placeholder, then run the poll task. -/
def lab_selected_events (waitMsgId : Nat) (script : List HttpOutcome) : List PollEvent :=
  PollEvent.sendMsg waitMsgId "⏳ Проверка запущена…" :: pollLoop waitMsgId script

/-! ### Course selection (handlers/common.py, `course_selected`) -/

structure CourseDTO where
  id : Int
  name : String
  semester : String
  logo : Option String
  email : Option String
deriving DecidableEq, Repr

/-- Response of `APIClient.register_student` when it is not `None`. -/
structure RegisterResult where
  status : String
  message : Option String
deriving DecidableEq, Repr

/-- `GET /courses/id` body keys, `none` for an absent key. -/
structure CourseInfoD where
  name : Option String
  semester : Option String
  githubOrganization : Option String
  googleSpreadsheet : Option String
deriving DecidableEq, Repr

/-- The remote responses one run of `course_selected` consumes. -/
structure CourseSelEnv where
  courses : List CourseDTO
  registerResult : Option RegisterResult
  groups : List String
  labs : List String
  courseInfo : Option CourseInfoD
deriving Repr

structure CourseSelOut where
  db : StudentDB
  alert : Option String
  registerCalled : Bool
  saveCalled : Bool
  rendered : Option String
deriving Repr

/-- The labs message text of `course_selected`. -/
def courseLabsText (info : Option CourseInfoD) (group : String) : String :=
  match info with
  | some ci =>
      let cname := ci.name.getD "Неизвестно"
      let semester := ci.semester.getD "Неизвестно"
      let githubOrg := ci.githubOrganization.getD "Не указан"
      let spreadsheetId := ci.googleSpreadsheet.getD "Не указан"
      let githubLink :=
        if githubOrg != "Не указан" then "https://github.com/" ++ githubOrg else "Не указан"
      let spreadsheetLink :=
        if spreadsheetId != "Не указан" then
          "https://docs.google.com/spreadsheets/d/" ++ spreadsheetId
        else "Не указан"
      "<b>📚 " ++ cname ++ " (" ++ semester ++ ")</b>\n"
        ++ "🔗 GitHub: <a href=\"" ++ githubLink ++ "\">" ++ githubOrg ++ "</a>\n"
        ++ "📊 Таблица: <a href=\"" ++ spreadsheetLink ++ "\">" ++ spreadsheetId ++ "</a>\n\n"
        ++ "<b>🧪 Группа " ++ group ++ " лабораторные</b>"
  | none => "<b>🧪 Группа " ++ group ++ " лабораторные</b>"

/-- The `if registered:` tail of `course_selected`: group membership
check, labs check, then the labs message. -/
def afterRegistered (db : StudentDB) (student : StudentRec) (env : CourseSelEnv)
    (regCalled saveCalled : Bool) : CourseSelOut :=
  if env.groups.contains student.group_code = false then
    ⟨db, some "⚠️ Этот курс не для твоей группы", regCalled, saveCalled, none⟩
  else if env.labs.isEmpty then
    ⟨db, some "📭 Для твоей группы лабораторных нет", regCalled, saveCalled, none⟩
  else
    ⟨db, none, regCalled, saveCalled, some (courseLabsText env.courseInfo student.group_code)⟩

/-- Handler `course_selected`: resolve the course by id, resolve the
student by chat id, and either take the already-registered shortcut
(membership of (name, semester) in the stored course list — no remote
register call, no save) or call the register endpoint, append the course
reference and persist it, and only then run the group/labs checks.
`none` models the unhandled ValueError were `save` to raise here. -/
def course_selected (courseId : String) (chat : Int) (env : CourseSelEnv)
    (db : StudentDB) (now : Int) : Option CourseSelOut :=
  match env.courses.find? (fun c => toString c.id == courseId) with
  | none => some ⟨db, some "❌ Курс не найден", false, false, none⟩
  | some course =>
    match StudentRepository.get_by_chat db chat with
    | none => some ⟨db, some "⚠️ Необходимо зарегистрироваться", false, false, none⟩
    | some student =>
      if student.courses.any (fun cr => cr.name == course.name && cr.semester == course.semester) then
        some (afterRegistered db student env false false)
      else
        match env.registerResult with
        | none => some ⟨db, some "❌ Ошибка сервера", true, false, none⟩
        | some result =>
          if result.status != "registered" && result.status != "already_registered" then
            some ⟨db, some (result.message.getD "❌ Не удалось привязать курс"), true, false, none⟩
          else
            let student2 :=
              { student with courses := student.courses ++ [⟨course.name, course.semester⟩] }
            match StudentRepository.save db student2 now with
            | Except.ok db2 => some (afterRegistered db2 student2 env true true)
            | Except.error _ => none

/-- The n-th state of the fixed registration order (CONFIRM past the end). -/
def ORDERn (n : Nat) : RegState := ORDER.getD n RegState.CONFIRM

/-- The five registration fields entered in order from a fresh session:
SURNAME input `a`, then NAME `b`, PATRONYMIC `c`, GROUP `d`, GITHUB `e`
(message ids 1..5). -/
def regChain (a b c d e : String) : Option StepOut :=
  (reg_steps RegState.SURNAME RegBag.empty a 1).bind (fun o1 =>
  (reg_steps o1.state o1.bag b 2).bind (fun o2 =>
  (reg_steps o2.state o2.bag c 3).bind (fun o3 =>
  (reg_steps o3.state o3.bag d 4).bind (fun o4 =>
  reg_steps o4.state o4.bag e 5))))

/-! ## Helper lemmas -/

theorem afterRegistered_fields (db : StudentDB) (student : StudentRec)
    (env : CourseSelEnv) (r s : Bool) :
    (afterRegistered db student env r s).db = db ∧
    (afterRegistered db student env r s).registerCalled = r ∧
    (afterRegistered db student env r s).saveCalled = s := by
  unfold afterRegistered
  split
  · exact ⟨rfl, rfl, rfl⟩
  · split
    · exact ⟨rfl, rfl, rfl⟩
    · exact ⟨rfl, rfl, rfl⟩

theorem save_insert (db : StudentDB) (s : StudentRec) (now : Int)
    (hid : s.id = none) (hno : StudentRepository.check_existing db s = none) :
    StudentRepository.save db s now =
      Except.ok ⟨db.rows ++
        [{ s with id := some db.nextId, created_at := some now, updated_at := some now }],
        db.nextId + 1⟩ := by
  unfold StudentRepository.save
  rw [hid, hno]
  simp

theorem save_duplicate (db : StudentDB) (s : StudentRec) (now : Int)
    (hid : s.id = none) (hdup : (StudentRepository.check_existing db s).isSome = true) :
    StudentRepository.save db s now = Except.error SaveError.duplicate := by
  unfold StudentRepository.save
  rw [hid]
  simp [hdup]

theorem save_update (db : StudentDB) (s : StudentRec) (now : Int) (i : Nat)
    (hid : s.id = some i) :
    StudentRepository.save db s now =
      Except.ok ⟨db.rows.map (fun r =>
        if r.id == some i then
          { r with surname := s.surname, name := s.name, patronymic := s.patronymic,
                   group_code := s.group_code, github := s.github, courses := s.courses,
                   updated_at := some now }
        else r), db.nextId⟩ := by
  unfold StudentRepository.save
  rw [hid]
  simp

theorem reg_confirm_full (chat : Int) (su na pa gr gh : String) (mid : Option Nat)
    (db : StudentDB) (now : Int) :
    reg_confirm chat ⟨some su, some na, some pa, some gr, some gh, mid⟩ db now =
      match StudentRepository.save db
        ⟨none, chat, su, na, (if pa == "-" then none else some pa), gr, gh, [], none, none⟩ now with
      | Except.ok db2 =>
          some ⟨none, RegBag.empty, db2,
                "✅ Регистрация завершена\n\n🏠 Главное меню", Kb.mainMenuKb⟩
      | Except.error SaveError.duplicate =>
          some ⟨none, RegBag.empty, db, dupRegMessage, Kb.startKb⟩ := rfl

/-! ## Claims -/

/-- Claim C1, counterexample: at a concrete failed PASSWORD submission
(the remote login returned no cookie) the conversation state after
`admin_password_step` is still PASSWORD — it is not set back to LOGIN as
the claim states. -/
theorem claim_C1_counterexample :
    (admin_password_step AdminState.PASSWORD [] none 0).state = AdminState.PASSWORD ∧
    (admin_password_step AdminState.PASSWORD [] none 0).state ≠ AdminState.LOGIN := by
  exact ⟨rfl, by decide⟩

/-- Claim C1, amended: when the PASSWORD submission's remote login call
fails, `admin_password_step` renders the error prompt and leaves both the
conversation state and the stored session unchanged (the user stays in
PASSWORD); on success the state becomes MAIN and the cookie is persisted
with expiry 3600 seconds from now. -/
theorem claim_C1 (st : AdminState) (db : SessionDB) (now : Int) (cookie : String) :
    (admin_password_step st db none now).state = st ∧
    (admin_password_step st db none now).db = db ∧
    (admin_password_step st db none now).rendered = "❌ Неверные данные. Попробуйте ещё раз" ∧
    (admin_password_step st db (some cookie) now).state = AdminState.MAIN ∧
    (admin_password_step st db (some cookie) now).db = [⟨cookie, now + 3600⟩] :=
  ⟨rfl, rfl, rfl, rfl, rfl⟩

/-- Claim C2, counterexample: `del_group` is a privileged admin action
(it cascade-deletes every student of a group) that never invokes the
auth guard. With a stored token whose expiry 5 is at the current time 5
(expired by the guard's at-or-before test), the handler still performs
the privileged delete (the group's student row is gone), leaves the
expired token stored rather than purging it, raises no alert, and moves
the conversation state from CONFIRM to GROUPS — contradicting every part
of the claim for this action. -/
theorem claim_C2_counterexample :
    ((⟨"c", 5⟩ : SessionRow).expires_at ≤ 5) ∧
    (del_group "g1" ⟨[⟨some 1, 10, "A", "B", none, "g1", "gh", [], none, none⟩], 2⟩
        [⟨"c", 5⟩] AdminState.CONFIRM).deleteCalled = true ∧
    (del_group "g1" ⟨[⟨some 1, 10, "A", "B", none, "g1", "gh", [], none, none⟩], 2⟩
        [⟨"c", 5⟩] AdminState.CONFIRM).studentDb.rows = [] ∧
    (del_group "g1" ⟨[⟨some 1, 10, "A", "B", none, "g1", "gh", [], none, none⟩], 2⟩
        [⟨"c", 5⟩] AdminState.CONFIRM).sessionDb = [⟨"c", 5⟩] ∧
    (del_group "g1" ⟨[⟨some 1, 10, "A", "B", none, "g1", "gh", [], none, none⟩], 2⟩
        [⟨"c", 5⟩] AdminState.CONFIRM).alert = none ∧
    (del_group "g1" ⟨[⟨some 1, 10, "A", "B", none, "g1", "gh", [], none, none⟩], 2⟩
        [⟨"c", 5⟩] AdminState.CONFIRM).state = AdminState.GROUPS ∧
    AdminState.GROUPS ≠ AdminState.CONFIRM := by
  refine ⟨by decide, rfl, by decide, rfl, rfl, rfl, by decide⟩

/-- Claim C2, amended: for every privileged admin action that is routed
through the `_ensure_admin` guard — `admin_groups`, `admin_courses`,
`back_courses`, `add_course_start`, `upload_new_course` and the course
branch of `admin_cancel` (any `body` run via `runGuarded`) — if the
stored token's expiry is at or before now, the guard purges the token
store, raises the session-expired alert, does not run the privileged
body, and leaves the conversation state unchanged. Handlers that bypass
the guard (such as `del_group`) are outside this scope. -/
theorem claim_C2 {σ : Type} (db : SessionDB) (now : Int) (st : σ)
    (body : SessionDB → σ → SessionDB × σ) (row : SessionRow)
    (hrow : AdminSessionRepo.get_cookie db = some row)
    (hexp : row.expires_at ≤ now) :
    runGuarded db now st body = ⟨[], some "⏰ Сессия истекла", st, false⟩ := by
  unfold runGuarded ensure_admin
  rw [hrow]
  simp [hexp, AdminSessionRepo.clear]

/-- Claim C2 witness: a concrete guarded action with an expired token. -/
theorem claim_C2_witness :
    runGuarded [⟨"c", 5⟩] 5 (0 : Nat) (fun d s => (d, s + 1)) =
      ⟨[], some "⏰ Сессия истекла", 0, false⟩ :=
  claim_C2 [⟨"c", 5⟩] 5 0 (fun d s => (d, s + 1)) ⟨"c", 5⟩ rfl (by decide)

/-- Claim C9: `save_cookie` replaces the whole table with the single new
row whose expiry is 3600 seconds from issuance, `clear` removes all rows,
and any sequence of save/clear operations starting from a store of at
most one row leaves at most one row stored. -/
theorem claim_C9 :
    (∀ (db : SessionDB) (c : String) (now : Int),
        AdminSessionRepo.save_cookie db c now = [⟨c, now + 3600⟩]) ∧
    (∀ db : SessionDB, AdminSessionRepo.clear db = []) ∧
    (∀ (ops : List SessionOp) (init : SessionDB), init.length ≤ 1 →
        (ops.foldl applySessionOp init).length ≤ 1) := by
  refine ⟨fun _ _ _ => rfl, fun _ => rfl, ?_⟩
  intro ops
  induction ops with
  | nil => intro init h; simpa using h
  | cons op rest ih =>
      intro init _
      have h1 : (applySessionOp init op).length ≤ 1 := by
        cases op <;>
          simp [applySessionOp, AdminSessionRepo.save_cookie, AdminSessionRepo.clear]
      simpa using ih _ h1

/-- Claim C9 witness: a concrete save/clear/save sequence ends with at
most one stored row. -/
theorem claim_C9_witness :
    (([SessionOp.save "a" 0, SessionOp.clear, SessionOp.save "b" 7].foldl
        applySessionOp []).length ≤ 1) :=
  claim_C9.2.2 [SessionOp.save "a" 0, SessionOp.clear, SessionOp.save "b" 7] [] (by decide)

theorem pollLoop_pending_script (mid : Nat) (ps : List GradeResponse)
    (h : ∀ p ∈ ps, p.status = "pending") (rest : List HttpOutcome) :
    pollLoop mid (ps.map HttpOutcome.ok ++ rest) =
      ps.map (fun _ => PollEvent.wait 15) ++ pollLoop mid rest := by
  induction ps with
  | nil => rfl
  | cons p qs ih =>
      have hp : p.status = "pending" := h p (List.mem_cons_self _ _)
      have hqs : ∀ q ∈ qs, q.status = "pending" := fun q hq => h q (List.mem_cons_of_mem _ hq)
      simp [pollLoop, APIClient.grade_lab, hp, ih hqs]

theorem filter_wait_none {p : PollEvent → Bool} (hfalse : p (PollEvent.wait 15) = false)
    (ps : List GradeResponse) : (ps.map (fun _ => PollEvent.wait 15)).filter p = [] := by
  induction ps with
  | nil => rfl
  | cons q qs ih => simp [List.filter_cons, hfalse, ih]

theorem filter_wait_all (ps : List GradeResponse) :
    ((ps.map (fun _ => PollEvent.wait 15)).filter isWaitEvent).length = ps.length := by
  induction ps with
  | nil => rfl
  | cons q qs ih => simp [List.filter_cons, isWaitEvent, ih]

/-- Claim C3: a dropped connection during a poll is mapped by
`APIClient.grade_lab` to the synthesized pending response instead of
raising, and the poll loop treats that iteration exactly like a real
"pending" response — one 15-unit backoff wait, then the retry, with no
terminal edit rendered for that iteration. -/
theorem claim_C3 (mid : Nat) (rest : List HttpOutcome) (r : GradeResponse)
    (hp : r.status = "pending") :
    APIClient.grade_lab HttpOutcome.disconnected =
      some ⟨"pending", none, some "Нет ответа, проверка запущена ⏳", none, [], none⟩ ∧
    pollLoop mid (HttpOutcome.disconnected :: rest) =
      PollEvent.wait 15 :: pollLoop mid rest ∧
    pollLoop mid (HttpOutcome.disconnected :: rest) =
      pollLoop mid (HttpOutcome.ok r :: rest) := by
  refine ⟨rfl, rfl, ?_⟩
  simp [pollLoop, APIClient.grade_lab, hp]

/-- Claim C3 witness: a concrete disconnect followed by a concrete
"pending" poll. -/
theorem claim_C3_witness :
    APIClient.grade_lab HttpOutcome.disconnected =
      some ⟨"pending", none, some "Нет ответа, проверка запущена ⏳", none, [], none⟩ ∧
    pollLoop 3 (HttpOutcome.disconnected :: []) =
      PollEvent.wait 15 :: pollLoop 3 [] ∧
    pollLoop 3 (HttpOutcome.disconnected :: []) =
      pollLoop 3 (HttpOutcome.ok ⟨"pending", none, none, none, [], none⟩ :: []) :=
  claim_C3 3 [] ⟨"pending", none, none, none, [], none⟩ rfl

/-- Claim C4: for a scripted gateway sequence of n "pending" responses
followed by one "updated" response, `lab_selected` produces exactly one
"checking" placeholder send, n backoff waits of 15 units, and exactly one
edit — of the same placeholder message id — carrying the formatted
terminal result, after which the loop stops. -/
theorem claim_C4 (mid : Nat) (ps : List GradeResponse) (u : GradeResponse)
    (hp : ∀ p ∈ ps, p.status = "pending") (hu : u.status = "updated") :
    lab_selected_events mid (ps.map HttpOutcome.ok ++ [HttpOutcome.ok u]) =
      PollEvent.sendMsg mid "⏳ Проверка запущена…"
        :: (ps.map (fun _ => PollEvent.wait 15)
            ++ [PollEvent.editMsg mid (formatGradeResult u) Kb.homeKb]) ∧
    ((lab_selected_events mid (ps.map HttpOutcome.ok ++ [HttpOutcome.ok u])).filter
        isSendEvent).length = 1 ∧
    ((lab_selected_events mid (ps.map HttpOutcome.ok ++ [HttpOutcome.ok u])).filter
        isEditEvent).length = 1 ∧
    ((lab_selected_events mid (ps.map HttpOutcome.ok ++ [HttpOutcome.ok u])).filter
        isWaitEvent).length = ps.length := by
  have hlast : pollLoop mid [HttpOutcome.ok u] =
      [PollEvent.editMsg mid (formatGradeResult u) Kb.homeKb] := by
    have h1 : (u.status == "pending") = false := by simp [hu]
    have h2 : (u.status == "updated") = true := by simp [hu]
    simp [pollLoop, APIClient.grade_lab, h1, h2]
  have htrace : lab_selected_events mid (ps.map HttpOutcome.ok ++ [HttpOutcome.ok u]) =
      PollEvent.sendMsg mid "⏳ Проверка запущена…"
        :: (ps.map (fun _ => PollEvent.wait 15)
            ++ [PollEvent.editMsg mid (formatGradeResult u) Kb.homeKb]) := by
    unfold lab_selected_events
    rw [pollLoop_pending_script mid ps hp, hlast]
  refine ⟨htrace, ?_, ?_, ?_⟩
  · rw [htrace]
    simp [List.filter_cons, List.filter_append, isSendEvent,
          filter_wait_none (p := isSendEvent) rfl]
  · rw [htrace]
    simp [List.filter_cons, List.filter_append, isEditEvent,
          filter_wait_none (p := isEditEvent) rfl]
  · rw [htrace]
    simp [List.filter_cons, List.filter_append, isWaitEvent, filter_wait_all]

/-- Claim C4 witness: the full trace for the scripted sequence
[pending, pending, updated] — one placeholder, two waits, one edit. -/
theorem claim_C4_witness :
    lab_selected_events 7
        (([⟨"pending", none, none, none, [], none⟩,
           ⟨"pending", none, none, none, [], none⟩] : List GradeResponse).map HttpOutcome.ok ++
         [HttpOutcome.ok ⟨"updated", some "✓", some "ok", some "5/5", ["a", "b"], none⟩]) =
      PollEvent.sendMsg 7 "⏳ Проверка запущена…"
      :: (([⟨"pending", none, none, none, [], none⟩,
            ⟨"pending", none, none, none, [], none⟩] : List GradeResponse).map
            (fun _ => PollEvent.wait 15)
          ++ [PollEvent.editMsg 7
                (formatGradeResult ⟨"updated", some "✓", some "ok", some "5/5", ["a", "b"], none⟩)
                Kb.homeKb]) :=
  (claim_C4 7
    [⟨"pending", none, none, none, [], none⟩, ⟨"pending", none, none, none, [], none⟩]
    ⟨"updated", some "✓", some "ok", some "5/5", ["a", "b"], none⟩
    (by decide) rfl).1

/-- Claim C6: when the selected course is already referenced (by name and
semester) in the student's stored course list, `course_selected` takes
the already-registered shortcut: the remote register endpoint is not
invoked, no save happens, and the stored registry — in particular the
student's course-list length — is unchanged. -/
theorem claim_C6 (cid : String) (chat : Int) (env : CourseSelEnv) (db : StudentDB)
    (now : Int) (course : CourseDTO) (student : StudentRec)
    (hc : env.courses.find? (fun c => toString c.id == cid) = some course)
    (hs : StudentRepository.get_by_chat db chat = some student)
    (hmem : student.courses.any
      (fun cr => cr.name == course.name && cr.semester == course.semester) = true) :
    ∃ out, course_selected cid chat env db now = some out ∧
      out.db = db ∧ out.registerCalled = false ∧ out.saveCalled = false := by
  refine ⟨afterRegistered db student env false false, ?_,
    (afterRegistered_fields db student env false false).1,
    (afterRegistered_fields db student env false false).2.1,
    (afterRegistered_fields db student env false false).2.2⟩
  unfold course_selected
  rw [hc, hs]
  simp [hmem]

/-- Claim C6 witness: a concrete already-registered student selecting the
same course again. -/
theorem claim_C6_witness :
    ∃ out,
      course_selected "1" 10
        ⟨[⟨1, "Алгебра", "Spring 2026", none, none⟩], none, [], [], none⟩
        ⟨[⟨some 1, 10, "Иванов", "Иван", none, "4231", "ivan",
           [⟨"Алгебра", "Spring 2026"⟩], none, none⟩], 2⟩ 0 = some out ∧
      out.db = ⟨[⟨some 1, 10, "Иванов", "Иван", none, "4231", "ivan",
                  [⟨"Алгебра", "Spring 2026"⟩], none, none⟩], 2⟩ ∧
      out.registerCalled = false ∧ out.saveCalled = false :=
  claim_C6 "1" 10
    ⟨[⟨1, "Алгебра", "Spring 2026", none, none⟩], none, [], [], none⟩
    ⟨[⟨some 1, 10, "Иванов", "Иван", none, "4231", "ivan",
       [⟨"Алгебра", "Spring 2026"⟩], none, none⟩], 2⟩ 0
    ⟨1, "Алгебра", "Spring 2026", none, none⟩
    ⟨some 1, 10, "Иванов", "Иван", none, "4231", "ivan",
     [⟨"Алгебра", "Spring 2026"⟩], none, none⟩
    rfl rfl rfl

/-- Claim C10: when the student is not yet registered for the course, the
remote registration succeeds, and the student's group is not among the
course's groups, `course_selected` aborts with the group alert and
renders no labs message — but the course reference it appended and saved
beforehand stays in the stored registry (no rollback). -/
theorem claim_C10 (cid : String) (chat : Int) (env : CourseSelEnv) (db : StudentDB)
    (now : Int) (course : CourseDTO) (student : StudentRec) (i : Nat) (res : RegisterResult)
    (hc : env.courses.find? (fun c => toString c.id == cid) = some course)
    (hs : StudentRepository.get_by_chat db chat = some student)
    (hid : student.id = some i)
    (hnomem : student.courses.any
      (fun cr => cr.name == course.name && cr.semester == course.semester) = false)
    (hreg : env.registerResult = some res)
    (hst : res.status = "registered")
    (hgrp : env.groups.contains student.group_code = false) :
    ∃ out, course_selected cid chat env db now = some out ∧
      out.alert = some "⚠️ Этот курс не для твоей группы" ∧
      out.rendered = none ∧
      out.registerCalled = true ∧
      out.saveCalled = true ∧
      ∃ r, r ∈ out.db.rows ∧
        r.chat_id = student.chat_id ∧
        r.courses = student.courses ++ [⟨course.name, course.semester⟩] := by
  have hsave := save_update db
    { student with courses := student.courses ++ [⟨course.name, course.semester⟩] }
    now i hid
  have hmain : course_selected cid chat env db now =
      some (afterRegistered
        ⟨db.rows.map (fun r =>
          if r.id == some i then
            { r with surname := student.surname, name := student.name,
                     patronymic := student.patronymic, group_code := student.group_code,
                     github := student.github,
                     courses := student.courses ++ [⟨course.name, course.semester⟩],
                     updated_at := some now }
          else r), db.nextId⟩
        { student with courses := student.courses ++ [⟨course.name, course.semester⟩] }
        env true true) := by
    unfold course_selected
    rw [hc, hs]
    simp [hnomem, hreg, hst, hsave]
  have habort : ∀ (db2 : StudentDB) (st2 : StudentRec), st2.group_code = student.group_code →
      afterRegistered db2 st2 env true true =
        ⟨db2, some "⚠️ Этот курс не для твоей группы", true, true, none⟩ := by
    intro db2 st2 hgc
    unfold afterRegistered
    rw [hgc, hgrp]
    simp
  rw [hmain, habort _
    { student with courses := student.courses ++ [⟨course.name, course.semester⟩] } rfl]
  refine ⟨_, rfl, rfl, rfl, rfl, rfl, ?_⟩
  have hmemdb : student ∈ db.rows := List.mem_of_find?_eq_some hs
  refine ⟨(fun r =>
      if r.id == some i then
        { r with surname := student.surname, name := student.name,
                 patronymic := student.patronymic, group_code := student.group_code,
                 github := student.github,
                 courses := student.courses ++ [⟨course.name, course.semester⟩],
                 updated_at := some now }
      else r) student, List.mem_map.2 ⟨student, hmemdb, rfl⟩, ?_, ?_⟩
  · simp [hid]
  · simp [hid]

/-- Claim C10 witness: a concrete successful registration whose group
check then fails; the appended course reference remains stored. -/
theorem claim_C10_witness :
    ∃ out,
      course_selected "1" 10
        ⟨[⟨1, "Физика", "Fall 2025", none, none⟩], some ⟨"registered", none⟩,
         ["g2"], [], none⟩
        ⟨[⟨some 1, 10, "Петров", "Пётр", none, "g1", "pete", [], none, none⟩], 2⟩ 0
        = some out ∧
      out.alert = some "⚠️ Этот курс не для твоей группы" ∧
      out.rendered = none ∧
      out.registerCalled = true ∧
      out.saveCalled = true ∧
      ∃ r, r ∈ out.db.rows ∧
        r.chat_id = (10 : Int) ∧
        r.courses = ([] : List CourseRef) ++ [⟨"Физика", "Fall 2025"⟩] :=
  claim_C10 "1" 10
    ⟨[⟨1, "Физика", "Fall 2025", none, none⟩], some ⟨"registered", none⟩, ["g2"], [], none⟩
    ⟨[⟨some 1, 10, "Петров", "Пётр", none, "g1", "pete", [], none, none⟩], 2⟩ 0
    ⟨1, "Физика", "Fall 2025", none, none⟩
    ⟨some 1, 10, "Петров", "Пётр", none, "g1", "pete", [], none, none⟩
    1 ⟨"registered", none⟩ rfl rfl rfl rfl rfl rfl rfl

/-- Claim C7: from every registration state with a predecessor in the
fixed order, `reg_back` lands exactly on the predecessor and preserves
every stored field value; from SURNAME it is a no-op leaving both the
state and the data bag unchanged (and rendering nothing). -/
theorem claim_C7 (bag : RegBag) (mid : Nat) :
    (∀ n, n + 1 < ORDER.length →
        ∃ out, reg_back (ORDERn (n + 1)) bag mid = some out ∧
          out.state = ORDERn n ∧
          out.bag.surname = bag.surname ∧
          out.bag.name = bag.name ∧
          out.bag.patronymic = bag.patronymic ∧
          out.bag.group = bag.group ∧
          out.bag.github = bag.github) ∧
    reg_back RegState.SURNAME bag mid = some ⟨RegState.SURNAME, bag, none, none⟩ := by
  constructor
  · intro n hn
    have h4 : n < 4 := by simp [ORDER] at hn; omega
    interval_cases n <;> exact ⟨_, rfl, rfl, rfl, rfl, rfl, rfl, rfl⟩
  · rfl

/-- Claim C7 witness: back from the GROUP state (index 3) lands on
PATRONYMIC (index 2) with all fields preserved. -/
theorem claim_C7_witness :
    ∃ out, reg_back (ORDERn 3) RegBag.empty 5 = some out ∧
      out.state = ORDERn 2 ∧
      out.bag.surname = RegBag.empty.surname ∧
      out.bag.name = RegBag.empty.name ∧
      out.bag.patronymic = RegBag.empty.patronymic ∧
      out.bag.group = RegBag.empty.group ∧
      out.bag.github = RegBag.empty.github :=
  (claim_C7 RegBag.empty 5).1 2 (by decide)

/-- Claim C8: entering the five fields in order yields the CONFIRM
summary containing exactly the five submitted values after the code's
normalization (strip, plus title-case for the three name fields), and
confirming against a fresh registry persists a record whose patronymic
is absent exactly when the collected patronymic is the sentinel "-" (in
particular when the submitted text is exactly "-") and is the retained
collected value otherwise. -/
theorem claim_C8 (a b c d e : String) (chat : Int) (nid : Nat) (now : Int) :
    ∃ out, regChain a b c d e = some out ∧
      out.state = RegState.CONFIRM ∧
      out.rendered =
        "<b>" ++ normalize_fio (pyStrip a) ++ " " ++ normalize_fio (pyStrip b) ++ " "
          ++ normalize_fio (pyStrip c) ++ "</b>\n" ++ "Группа: " ++ pyStrip d
          ++ "\nGitHub: " ++ pyStrip e ∧
      ∃ cOut, reg_confirm chat out.bag ⟨[], nid⟩ now = some cOut ∧
        cOut.db.rows =
          [⟨some nid, chat, normalize_fio (pyStrip a), normalize_fio (pyStrip b),
            (if normalize_fio (pyStrip c) == "-" then none
             else some (normalize_fio (pyStrip c))),
            pyStrip d, pyStrip e, [], some now, some now⟩] ∧
        (c = "-" → cOut.db.rows.map (fun r => r.patronymic) = [none]) ∧
        (normalize_fio (pyStrip c) ≠ "-" →
          cOut.db.rows.map (fun r => r.patronymic) = [some (normalize_fio (pyStrip c))]) := by
  have hchain : regChain a b c d e = some ⟨RegState.CONFIRM,
      ⟨some (normalize_fio (pyStrip a)), some (normalize_fio (pyStrip b)),
       some (normalize_fio (pyStrip c)), some (pyStrip d), some (pyStrip e), some 5⟩,
      "<b>" ++ normalize_fio (pyStrip a) ++ " " ++ normalize_fio (pyStrip b) ++ " "
        ++ normalize_fio (pyStrip c) ++ "</b>\n" ++ "Группа: " ++ pyStrip d
        ++ "\nGitHub: " ++ pyStrip e,
      Kb.confirmKb⟩ := rfl
  have hsave := save_insert ⟨[], nid⟩
    ⟨none, chat, normalize_fio (pyStrip a), normalize_fio (pyStrip b),
     (if normalize_fio (pyStrip c) == "-" then none else some (normalize_fio (pyStrip c))),
     pyStrip d, pyStrip e, [], none, none⟩ now rfl rfl
  have hconf : reg_confirm chat
      ⟨some (normalize_fio (pyStrip a)), some (normalize_fio (pyStrip b)),
       some (normalize_fio (pyStrip c)), some (pyStrip d), some (pyStrip e), some 5⟩
      ⟨[], nid⟩ now = some ⟨none, RegBag.empty,
        ⟨[⟨some nid, chat, normalize_fio (pyStrip a), normalize_fio (pyStrip b),
           (if normalize_fio (pyStrip c) == "-" then none
            else some (normalize_fio (pyStrip c))),
           pyStrip d, pyStrip e, [], some now, some now⟩], nid + 1⟩,
        "✅ Регистрация завершена\n\n🏠 Главное меню", Kb.mainMenuKb⟩ := by
    rw [reg_confirm_full, hsave]
    rfl
  refine ⟨_, hchain, rfl, rfl, _, hconf, rfl, ?_, ?_⟩
  · intro hc
    subst hc
    rfl
  · intro hne
    have hb : (normalize_fio (pyStrip c) == "-") = false := beq_eq_false_iff_ne.mpr hne
    simp [hb]

/-- Claim C8 witness: the concrete five-field run with patronymic "-". -/
theorem claim_C8_witness :
    ∃ out, regChain " ivanov " "petr" "-" " 4231 " "gh" = some out ∧
      out.state = RegState.CONFIRM ∧
      out.rendered =
        "<b>" ++ normalize_fio (pyStrip " ivanov ") ++ " " ++ normalize_fio (pyStrip "petr")
          ++ " " ++ normalize_fio (pyStrip "-") ++ "</b>\n" ++ "Группа: " ++ pyStrip " 4231 "
          ++ "\nGitHub: " ++ pyStrip "gh" ∧
      ∃ cOut, reg_confirm 10 out.bag ⟨[], 1⟩ 0 = some cOut ∧
        cOut.db.rows =
          [⟨some 1, 10, normalize_fio (pyStrip " ivanov "), normalize_fio (pyStrip "petr"),
            (if normalize_fio (pyStrip "-") == "-" then none
             else some (normalize_fio (pyStrip "-"))),
            pyStrip " 4231 ", pyStrip "gh", [], some 0, some 0⟩] ∧
        ("-" = "-" → cOut.db.rows.map (fun r => r.patronymic) = [none]) ∧
        (normalize_fio (pyStrip "-") ≠ "-" →
          cOut.db.rows.map (fun r => r.patronymic) = [some (normalize_fio (pyStrip "-"))]) :=
  claim_C8 " ivanov " "petr" "-" " 4231 " "gh" 10 1 0

/-- Claim C5: after a first successful registration, a second confirm
from a different conversation id with the identical (surname, name,
group, github) tuple makes the repository raise the duplicate error, so
no second record is created, the duplicate-specific rejection with the
restart keyboard is rendered, and the second session is still cleared. -/
theorem claim_C5 (su na pa1 pa2 gr gh : String) (chat1 chat2 : Int) (m1 m2 : Nat)
    (db0 : StudentDB) (now1 now2 : Int)
    (_hchat : chat1 ≠ chat2)
    (hfresh : StudentRepository.check_existing db0
      ⟨none, chat1, su, na, (if pa1 == "-" then none else some pa1), gr, gh, [], none, none⟩
      = none) :
    ∃ out1,
      reg_confirm chat1 ⟨some su, some na, some pa1, some gr, some gh, some m1⟩ db0 now1
        = some out1 ∧
      out1.kb = Kb.mainMenuKb ∧
      ∃ out2,
        reg_confirm chat2 ⟨some su, some na, some pa2, some gr, some gh, some m2⟩ out1.db now2
          = some out2 ∧
        StudentRepository.save out1.db
          ⟨none, chat2, su, na, (if pa2 == "-" then none else some pa2), gr, gh, [], none, none⟩
          now2 = Except.error SaveError.duplicate ∧
        out2.db = out1.db ∧
        out2.rendered = dupRegMessage ∧
        out2.kb = Kb.startKb ∧
        out2.bag = RegBag.empty ∧
        out2.state = none := by
  have hsave1 := save_insert db0
    ⟨none, chat1, su, na, (if pa1 == "-" then none else some pa1), gr, gh, [], none, none⟩
    now1 rfl hfresh
  have h1 : reg_confirm chat1 ⟨some su, some na, some pa1, some gr, some gh, some m1⟩ db0 now1
      = some ⟨none, RegBag.empty,
          ⟨db0.rows ++ [⟨some db0.nextId, chat1, su, na,
             (if pa1 == "-" then none else some pa1), gr, gh, [], some now1, some now1⟩],
           db0.nextId + 1⟩,
          "✅ Регистрация завершена\n\n🏠 Главное меню", Kb.mainMenuKb⟩ := by
    rw [reg_confirm_full, hsave1]
  have hp2 : (StudentRepository.check_existing
      ⟨db0.rows ++ [⟨some db0.nextId, chat1, su, na,
         (if pa1 == "-" then none else some pa1), gr, gh, [], some now1, some now1⟩],
       db0.nextId + 1⟩
      ⟨none, chat2, su, na, (if pa2 == "-" then none else some pa2), gr, gh, [], none, none⟩
      ).isSome = true := by
    apply List.find?_isSome.2
    refine ⟨⟨some db0.nextId, chat1, su, na,
      (if pa1 == "-" then none else some pa1), gr, gh, [], some now1, some now1⟩,
      List.mem_append_right _ (List.mem_singleton_self _), ?_⟩
    simp
  have hsave2 := save_duplicate
    ⟨db0.rows ++ [⟨some db0.nextId, chat1, su, na,
       (if pa1 == "-" then none else some pa1), gr, gh, [], some now1, some now1⟩],
     db0.nextId + 1⟩
    ⟨none, chat2, su, na, (if pa2 == "-" then none else some pa2), gr, gh, [], none, none⟩
    now2 rfl hp2
  have h2 : reg_confirm chat2 ⟨some su, some na, some pa2, some gr, some gh, some m2⟩
      ⟨db0.rows ++ [⟨some db0.nextId, chat1, su, na,
         (if pa1 == "-" then none else some pa1), gr, gh, [], some now1, some now1⟩],
       db0.nextId + 1⟩ now2
      = some ⟨none, RegBag.empty,
          ⟨db0.rows ++ [⟨some db0.nextId, chat1, su, na,
             (if pa1 == "-" then none else some pa1), gr, gh, [], some now1, some now1⟩],
           db0.nextId + 1⟩,
          dupRegMessage, Kb.startKb⟩ := by
    rw [reg_confirm_full, hsave2]
  exact ⟨_, h1, rfl, _, h2, hsave2, rfl, rfl, rfl, rfl, rfl⟩

/-- Claim C5 witness: two concrete identical-tuple registrations from
conversation ids 1 and 2 against an empty registry. -/
theorem claim_C5_witness :
    ∃ out1,
      reg_confirm 1 ⟨some "Ivanov", some "Ivan", some "-", some "4231", some "iv", some 3⟩
        ⟨[], 1⟩ 0 = some out1 ∧
      out1.kb = Kb.mainMenuKb ∧
      ∃ out2,
        reg_confirm 2 ⟨some "Ivanov", some "Ivan", some "-", some "4231", some "iv", some 4⟩
          out1.db 9 = some out2 ∧
        StudentRepository.save out1.db
          ⟨none, 2, "Ivanov", "Ivan", (if "-" == "-" then none else some "-"), "4231", "iv",
           [], none, none⟩ 9 = Except.error SaveError.duplicate ∧
        out2.db = out1.db ∧
        out2.rendered = dupRegMessage ∧
        out2.kb = Kb.startKb ∧
        out2.bag = RegBag.empty ∧
        out2.state = none :=
  claim_C5 "Ivanov" "Ivan" "-" "-" "4231" "iv" 1 2 3 4 ⟨[], 1⟩ 0 9 (by decide) rfl

end LabGraber
